import Mathlib

/-
Verification of the AJHB authentication service (backendauth.py).

The Python source is shallowly embedded: pure helpers become Lean
functions, Flask handlers become functions from a database value and a
request to an updated database value together with an HTTP status and a
JSON body, and each wall-clock read (datetime.now / datetime.utcnow) is
an explicit Nat parameter measured in seconds.  External library
primitives that the repository merely calls (AES-CBC, base64, UTF-8,
PBKDF2, HMAC inside PyJWT) are function parameters constrained only by
the properties the libraries actually guarantee; everything the
repository itself authors (padding discipline, control flow, SQL row
transformations, response bodies) is modelled concretely.
-/

namespace AJHB

/-- A byte, as handled by the Python bytes type. -/
abbrev Byte := Fin 256

/-! ### PKCS#7 padding (cryptography.hazmat.primitives.padding.PKCS7(128))

The padder appends k copies of the byte k, where k = 16 - len mod 16,
so k is between 1 and 16 and the result length is a multiple of 16.
The unpadder checks the overall length, reads the final byte k, checks
1 <= k <= 16 and that the final k bytes all equal k, and strips them;
any violation raises, which the embedding renders as none. -/

def pkcs7pad (m : List Byte) : List Byte :=
  let k := 16 - m.length % 16
  m ++ List.replicate k ⟨k % 256, by omega⟩

def pkcs7unpad (c : List Byte) : Option (List Byte) :=
  if c.length = 0 ∨ ¬ (c.length % 16 = 0) then none
  else
    match c.getLast? with
    | none => none
    | some b =>
      let k := b.val
      if k = 0 ∨ 16 < k ∨ c.length < k then none
      else if (c.drop (c.length - k)).all (fun x => x == b) then
        some (c.take (c.length - k))
      else none

theorem getLast?_replicate_pos {α : Type} (b : α) {k : Nat} (hk : 0 < k) :
    (List.replicate k b).getLast? = some b := by
  induction k with
  | zero => omega
  | succ n ih =>
    cases Nat.eq_zero_or_pos n with
    | inl h0 => subst h0; rfl
    | inr hpos =>
      rw [List.replicate_succ, List.getLast?_cons, ih hpos]
      rfl

theorem pkcs7pad_length_mod (m : List Byte) : (pkcs7pad m).length % 16 = 0 := by
  simp only [pkcs7pad, List.length_append, List.length_replicate]
  omega

theorem pkcs7unpad_pad (m : List Byte) : pkcs7unpad (pkcs7pad m) = some m := by
  have hlen : (pkcs7pad m).length = m.length + (16 - m.length % 16) := by
    simp [pkcs7pad]
  have hk1 : 1 ≤ 16 - m.length % 16 := by omega
  have hk16 : 16 - m.length % 16 ≤ 16 := by omega
  have hmod := pkcs7pad_length_mod m
  have hlast : (pkcs7pad m).getLast? =
      some (⟨(16 - m.length % 16) % 256, by omega⟩ : Byte) := by
    unfold pkcs7pad
    rw [List.getLast?_append_of_ne_nil]
    · exact getLast?_replicate_pos _ (by omega)
    · simp only [ne_eq, List.replicate_eq_nil_iff]
      omega
  unfold pkcs7unpad
  rw [hlast]
  simp only [hlen]
  have hkval : (16 - m.length % 16) % 256 = 16 - m.length % 16 := by omega
  have hnz : ¬ (m.length + (16 - m.length % 16) = 0 ∨
      ¬ ((m.length + (16 - m.length % 16)) % 16 = 0)) := by
    rw [hlen] at hmod
    omega
  rw [if_neg hnz]
  simp only [hkval]
  have hineq : ¬ (16 - m.length % 16 = 0 ∨ 16 < 16 - m.length % 16 ∨
      m.length + (16 - m.length % 16) < 16 - m.length % 16) := by omega
  rw [if_neg hineq]
  have hdropidx : m.length + (16 - m.length % 16) - (16 - m.length % 16)
      = m.length := by omega
  rw [hdropidx]
  have hdrop : (pkcs7pad m).drop m.length
      = List.replicate (16 - m.length % 16)
          (⟨(16 - m.length % 16) % 256, by omega⟩ : Byte) := by
    unfold pkcs7pad
    exact List.drop_left m _
  have htake : (pkcs7pad m).take m.length = m := by
    unfold pkcs7pad
    exact List.take_left m _
  rw [hdrop, htake]
  have hall : (List.replicate (16 - m.length % 16)
      (⟨(16 - m.length % 16) % 256, by omega⟩ : Byte)).all
      (fun x => x == (⟨16 - m.length % 16, by omega⟩ : Byte)) = true := by
    simp only [List.all_eq_true, List.mem_replicate, beq_iff_eq]
    intro x hx
    rw [hx.2]
    apply Fin.ext
    show (16 - m.length % 16) % 256 = 16 - m.length % 16
    omega
  rw [hall]
  simp

/-! ### Symmetric cipher helper (encrypt_data / decrypt_data)

encrypt_data draws a fresh random 16-byte IV (here the iv argument),
PKCS7-pads the UTF-8 bytes of the plaintext, encrypts with AES-256-CBC
under the process key, and base64-encodes iv followed by the ciphertext.
decrypt_data base64-decodes, splits the first 16 bytes as the IV,
decrypts the rest, unpads, and decodes UTF-8; every failure raises,
rendered here as none.  The AES-CBC transform, base64 and UTF-8 codecs
are library primitives and appear as function parameters. -/

def encrypt_data (cbcEnc : List Byte → List Byte → List Byte)
    (b64encode : List Byte → String) (utf8enc : String → List Byte)
    (iv : List Byte) (data : String) : String :=
  b64encode (iv ++ cbcEnc iv (pkcs7pad (utf8enc data)))

def decrypt_data (cbcDec : List Byte → List Byte → List Byte)
    (b64decode : String → Option (List Byte))
    (utf8dec : List Byte → Option String)
    (encrypted_data : String) : Option String :=
  match b64decode encrypted_data with
  | none => none
  | some encrypted_bytes =>
    let iv := encrypted_bytes.take 16
    let encrypted := encrypted_bytes.drop 16
    match pkcs7unpad (cbcDec iv encrypted) with
    | none => none
    | some decrypted => utf8dec decrypted

/-- C6: every plaintext round-trips through encrypt_data then
decrypt_data, given the guarantees the libraries provide: the base64
codec inverts itself, CBC decryption under the same key and IV inverts
CBC encryption, the UTF-8 codec inverts itself, and the IV drawn by
encrypt_data has 16 bytes, as secrets.token_bytes(16) ensures. -/
theorem C6_encrypt_decrypt_roundtrip
    (cbcEnc cbcDec : List Byte → List Byte → List Byte)
    (b64encode : List Byte → String) (b64decode : String → Option (List Byte))
    (utf8enc : String → List Byte) (utf8dec : List Byte → Option String)
    (iv : List Byte) (T : String)
    (hiv : iv.length = 16)
    (hb64 : ∀ x, b64decode (b64encode x) = some x)
    (hcbc : ∀ v x, cbcDec v (cbcEnc v x) = x)
    (hutf8 : ∀ s, utf8dec (utf8enc s) = some s) :
    decrypt_data cbcDec b64decode utf8dec
      (encrypt_data cbcEnc b64encode utf8enc iv T) = some T := by
  unfold encrypt_data decrypt_data
  rw [hb64]
  have htake : (iv ++ cbcEnc iv (pkcs7pad (utf8enc T))).take 16 = iv := by
    rw [← hiv]
    exact List.take_left iv _
  have hdrop : (iv ++ cbcEnc iv (pkcs7pad (utf8enc T))).drop 16
      = cbcEnc iv (pkcs7pad (utf8enc T)) := by
    rw [← hiv]
    exact List.drop_left iv _
  simp only [htake, hdrop, hcbc, pkcs7unpad_pad, hutf8]

/-! Concrete codecs used to instantiate the library parameters in
witnesses: a byte-list-to-string codec standing in for base64, and a
three-bytes-per-char codec standing in for UTF-8.  Both satisfy the
round-trip hypotheses the theorems assume of the real libraries. -/

def byteStr (l : List Byte) : String :=
  String.mk (l.map (fun b => Char.ofNat b.val))

def byteStrInv (s : String) : Option (List Byte) :=
  some (s.data.map (fun c => ⟨c.toNat % 256, by omega⟩))

set_option maxRecDepth 4000 in
theorem char_ofNat_byte_toNat : ∀ b : Byte, (Char.ofNat b.val).toNat % 256 = b.val := by
  decide

theorem byteStrInv_byteStr (l : List Byte) : byteStrInv (byteStr l) = some l := by
  unfold byteStr byteStrInv
  simp only [List.map_map, Option.some.injEq]
  have hpt : ∀ b : Byte,
      ((fun c => (⟨c.toNat % 256, by omega⟩ : Byte)) ∘
        fun b => Char.ofNat b.val) b = b := by
    intro b
    apply Fin.ext
    show (Char.ofNat b.val).toNat % 256 = b.val
    exact char_ofNat_byte_toNat b
  calc l.map _ = l.map id := List.map_congr_left (fun b _ => hpt b)
    _ = l := List.map_id l

def packChar (c : Char) : List Byte :=
  [⟨c.toNat / 65536 % 256, by omega⟩, ⟨c.toNat / 256 % 256, by omega⟩,
   ⟨c.toNat % 256, by omega⟩]

def packChars : List Char → List Byte
  | [] => []
  | c :: cs => packChar c ++ packChars cs

def unpackChars : List Byte → List Char
  | a :: b :: c :: rest =>
      Char.ofNat (a.val * 65536 + b.val * 256 + c.val) :: unpackChars rest
  | _ => []

theorem char_toNat_lt (c : Char) : c.toNat < 1114112 := by
  rcases c.valid with h | h
  · exact Nat.lt_trans h (by decide)
  · exact h.2

theorem unpackChars_packChars (cs : List Char) : unpackChars (packChars cs) = cs := by
  induction cs with
  | nil => rfl
  | cons c cs ih =>
    have hval := char_toNat_lt c
    show unpackChars (packChar c ++ packChars cs) = c :: cs
    simp only [packChar, List.cons_append, List.nil_append, List.append_nil,
      List.append_eq, unpackChars]
    rw [ih]
    congr 1
    show Char.ofNat (c.toNat / 65536 % 256 * 65536 + c.toNat / 256 % 256 * 256 +
      c.toNat % 256) = c
    have harith : c.toNat / 65536 % 256 * 65536 + c.toNat / 256 % 256 * 256 +
        c.toNat % 256 = c.toNat := by omega
    rw [harith, Char.ofNat_toNat]

def strPack (s : String) : List Byte := packChars s.data

def strUnpack (l : List Byte) : Option String := some (String.mk (unpackChars l))

theorem strUnpack_strPack (s : String) : strUnpack (strPack s) = some s := by
  unfold strPack strUnpack
  rw [unpackChars_packChars]

/-- Witness for C6: the round-trip theorem applied at the plaintext
"hola" with an all-zero 16-byte IV, the identity in place of the AES-CBC
block transform, and the concrete invertible codecs in place of base64
and UTF-8. -/
theorem C6_encrypt_decrypt_roundtrip_witness :
    decrypt_data (fun _ x => x) byteStrInv strUnpack
      (encrypt_data (fun _ x => x) byteStr strPack
        (List.replicate 16 (0 : Byte)) "hola") = some "hola" :=
  C6_encrypt_decrypt_roundtrip (fun _ x => x) (fun _ x => x) byteStr byteStrInv
    strPack strUnpack (List.replicate 16 (0 : Byte)) "hola"
    (by simp) byteStrInv_byteStr (fun _ _ => rfl) strUnpack_strPack

/-! ### Credential hasher (hash_password / verify_password)

hash_password derives the digest with hashlib.pbkdf2_hmac over sha256
at 100000 iterations, base64-encodes it, and returns it with the salt;
when no salt is supplied a fresh secrets.token_hex(32) value (the
freshSalt argument here) is used.  verify_password recomputes the
digest with the stored salt and compares the encoded strings with the
string equality operator.  PBKDF2 and base64 are hashlib/base64 library
primitives and appear as function parameters. -/

def hash_password (pbkdf2_hmac : String → String → Nat → List Byte)
    (b64encode : List Byte → String) (freshSalt : String)
    (password : String) (salt : Option String) : String × String :=
  let s := salt.getD freshSalt
  (b64encode (pbkdf2_hmac password s 100000), s)

def verify_password (pbkdf2_hmac : String → String → Nat → List Byte)
    (b64encode : List Byte → String)
    (password pwd_hash salt : String) : Bool :=
  (hash_password pbkdf2_hmac b64encode "" password (some salt)).1 == pwd_hash

/-- C2, counterexample.  The claim asserts that for EVERY password
distinct from P, verification against the digest of P fails.  The code
realizes verification as equality of derived digests, so the claim
holds only as far as the derived digests of distinct passwords differ:
nothing in the code rules out digest collisions, and for the real
PBKDF2-HMAC-SHA256 (a fixed function from unbounded strings to 32-byte
digests) collisions exist by counting, though no explicit pair is
known.  Instantiating the external digest parameter with a colliding
function exhibits the failure: with a constant digest, the password b
differs from a, yet verification of b against the stored digest of a
succeeds, so the unconditional claim does not follow from the code. -/
theorem C2_distinct_password_verifies_counterexample :
    "b" ≠ "a" ∧
      verify_password (fun _ _ _ => ([] : List Byte)) byteStr "b"
        (hash_password (fun _ _ _ => ([] : List Byte)) byteStr "x" "a"
          (some "s")).1 "s" = true :=
  ⟨by decide, rfl⟩

/-- C2, amended: verify_password(P, hash_password(P, S).digest, S)
always returns true, and verify_password(P2, hash_password(P, S).digest,
S) returns false for exactly those P2 whose derived digest differs from
the digest of P, i.e. unless P2 collides with P under the salted
PBKDF2 digest. -/
theorem C2_hash_verify_roundtrip
    (pbkdf2_hmac : String → String → Nat → List Byte)
    (b64encode : List Byte → String) (freshSalt P S P' : String) :
    verify_password pbkdf2_hmac b64encode P
        (hash_password pbkdf2_hmac b64encode freshSalt P (some S)).1 S = true ∧
      (b64encode (pbkdf2_hmac P' S 100000) ≠ b64encode (pbkdf2_hmac P S 100000) →
        verify_password pbkdf2_hmac b64encode P'
          (hash_password pbkdf2_hmac b64encode freshSalt P (some S)).1 S = false) := by
  constructor
  · simp [verify_password, hash_password]
  · intro hne
    simp only [verify_password, hash_password, Option.getD_some]
    rw [beq_eq_false_iff_ne]
    exact hne

/-- Witness for C2: the amended theorem applied at password a, impostor
password b, salt s, with the digest instantiated as the packed bytes of
the password, for which the two derived digests are concretely
distinct. -/
theorem C2_hash_verify_roundtrip_witness :
    verify_password (fun p _ _ => strPack p) byteStr "a"
        (hash_password (fun p _ _ => strPack p) byteStr "x" "a" (some "s")).1
        "s" = true ∧
      verify_password (fun p _ _ => strPack p) byteStr "b"
        (hash_password (fun p _ _ => strPack p) byteStr "x" "a" (some "s")).1
        "s" = false :=
  ⟨(C2_hash_verify_roundtrip (fun p _ _ => strPack p) byteStr "x" "a" "s" "b").1,
   (C2_hash_verify_roundtrip (fun p _ _ => strPack p) byteStr "x" "a" "s" "b").2
     (by decide)⟩

/-! ### Token service (generate_token / verify_token)

PyJWT is embedded at the granularity the code uses it: a token is
either a well-formed signed payload or unparseable garbage; jwt.encode
signs the payload with HMAC-SHA256 under the process JWT secret (the
hmac parameter models the MAC); jwt.decode recomputes and checks the
signature, then checks the exp claim against the wall clock with zero
leeway (expired when exp is not in the future), raising
InvalidTokenError respectively ExpiredSignatureError, both rendered as
Except.error. -/

structure Payload where
  user_id : Nat
  username : String
  role : String
  exp : Nat
deriving DecidableEq

inductive TokenWire
  | signed (payload : Payload) (sig : Nat)
  | garbage (raw : String)
deriving DecidableEq

inductive JwtError
  | expiredSignature
  | invalidToken
deriving DecidableEq

def jwt_encode (hmac : Nat → Payload → Nat) (secret : Nat) (p : Payload) :
    TokenWire :=
  .signed p (hmac secret p)

def jwt_decode (hmac : Nat → Payload → Nat) (secret now : Nat) :
    TokenWire → Except JwtError Payload
  | .garbage _ => .error .invalidToken
  | .signed p sig =>
    if sig ≠ hmac secret p then .error .invalidToken
    else if p.exp ≤ now then .error .expiredSignature
    else .ok p

/-- Validity window of a token: timedelta(hours=24), in seconds. -/
def tokenValidity : Nat := 24 * 3600

def generate_token (hmac : Nat → Payload → Nat) (secret now : Nat)
    (user_id : Nat) (username role : String) : TokenWire :=
  jwt_encode hmac secret ⟨user_id, username, role, now + tokenValidity⟩

def verify_token (hmac : Nat → Payload → Nat) (secret now : Nat)
    (token : TokenWire) : Option Payload :=
  match jwt_decode hmac secret now token with
  | .ok p => some p
  | .error _ => none

/-- C3: token verification fails closed.  verify_token is a total
function into Option Payload -- the embedding of never raising to the
caller -- and each failure mode of jwt.decode is caught and mapped to
none: a signed token whose signature does not match the MAC under the
process secret, a structurally malformed token, and a correctly signed
token whose expiry is not in the future all yield none. -/
theorem C3_verify_token_fails_closed (hmac : Nat → Payload → Nat)
    (secret now sig : Nat) (p : Payload) (raw : String) :
    (sig ≠ hmac secret p →
        verify_token hmac secret now (.signed p sig) = none) ∧
      verify_token hmac secret now (.garbage raw) = none ∧
      (p.exp ≤ now →
        verify_token hmac secret now (.signed p (hmac secret p)) = none) := by
  refine ⟨fun hsig => ?_, rfl, fun hexp => ?_⟩
  · simp [verify_token, jwt_decode, hsig]
  · simp [verify_token, jwt_decode, hexp]

/-- Witness for C3: the fail-closed theorem applied at a concrete
payload, a wrong signature, a garbage token, and a clock at the expiry
instant, under the all-zero MAC. -/
theorem C3_verify_token_fails_closed_witness :
    verify_token (fun _ _ => 0) 0 5 (.signed ⟨1, "u", "director", 5⟩ 1)
        = none ∧
      verify_token (fun _ _ => 0) 0 5 (.garbage "x") = none ∧
      verify_token (fun _ _ => 0) 0 5
        (.signed ⟨1, "u", "director", 5⟩ ((fun _ _ => 0) 0
          (⟨1, "u", "director", 5⟩ : Payload))) = none :=
  ⟨(C3_verify_token_fails_closed (fun _ _ => 0) 0 5 1 ⟨1, "u", "director", 5⟩
      "x").1 (by decide),
   (C3_verify_token_fails_closed (fun _ _ => 0) 0 5 1 ⟨1, "u", "director", 5⟩
      "x").2.1,
   (C3_verify_token_fails_closed (fun _ _ => 0) 0 5 1 ⟨1, "u", "director", 5⟩
      "x").2.2 (by decide)⟩

/-- C4: a token issued by generate_token is the signed payload carrying
exactly the given user id, username and role with expiry equal to the
issue instant plus the 24-hour validity; verifying it at the issue
instant succeeds with those claims, and verifying it at any instant
strictly past the expiry fails. -/
theorem C4_token_claims_and_expiry (hmac : Nat → Payload → Nat)
    (secret tGen t : Nat) (uid : Nat) (un role : String) :
    generate_token hmac secret tGen uid un role
        = .signed ⟨uid, un, role, tGen + tokenValidity⟩
            (hmac secret ⟨uid, un, role, tGen + tokenValidity⟩) ∧
      verify_token hmac secret tGen (generate_token hmac secret tGen uid un role)
        = some ⟨uid, un, role, tGen + tokenValidity⟩ ∧
      (tGen + tokenValidity < t →
        verify_token hmac secret t (generate_token hmac secret tGen uid un role)
          = none) := by
  refine ⟨rfl, ?_, fun hpast => ?_⟩
  · simp [verify_token, jwt_decode, generate_token, jwt_encode, tokenValidity]
  · have hd : jwt_decode hmac secret t (generate_token hmac secret tGen uid un role)
        = .error .expiredSignature := by
      simp only [generate_token, jwt_encode, jwt_decode, ne_eq]
      rw [if_neg (by simp), if_pos (Nat.le_of_lt hpast)]
    simp [verify_token, hd]

/-- Witness for C4: the claims-and-expiry theorem applied under the
all-zero MAC at issue instant 0 and verification instant 86401, one
second past the 24-hour expiry. -/
theorem C4_token_claims_and_expiry_witness :
    generate_token (fun _ _ => 0) 0 0 1 "u" "director"
        = .signed ⟨1, "u", "director", 0 + tokenValidity⟩
            ((fun _ _ => 0) 0 (⟨1, "u", "director", 0 + tokenValidity⟩ : Payload)) ∧
      verify_token (fun _ _ => 0) 0 0
          (generate_token (fun _ _ => 0) 0 0 1 "u" "director")
        = some ⟨1, "u", "director", 0 + tokenValidity⟩ ∧
      verify_token (fun _ _ => 0) 0 86401
          (generate_token (fun _ _ => 0) 0 0 1 "u" "director") = none :=
  ⟨(C4_token_claims_and_expiry (fun _ _ => 0) 0 0 86401 1 "u" "director").1,
   (C4_token_claims_and_expiry (fun _ _ => 0) 0 0 86401 1 "u" "director").2.1,
   (C4_token_claims_and_expiry (fun _ _ => 0) 0 0 86401 1 "u" "director").2.2
     (by decide)⟩

/-! ### Data model

The three SQLite tables of backendauth.py.  Formatted timestamps
(strings in the format %Y-%m-%d %H:%M:%S, whose lexicographic order agrees with
chronological order at second granularity) are modelled as Nat seconds.
AUTOINCREMENT ids are modelled as one plus the current row count. -/

structure User where
  id : Nat
  username : String
  password_hash : String
  salt : String
  nombre_completo : String
  email : Option String
  role : String
  permisos : String
  activo : Nat
  fecha_creacion : Nat
  ultimo_acceso : Option Nat
  creado_por : Option Nat
deriving DecidableEq

structure Session where
  id : Nat
  user_id : Nat
  token : TokenWire
  ip_address : Option String
  user_agent : Option String
  fecha_inicio : Nat
  fecha_expiracion : Nat
  activa : Nat
deriving DecidableEq

structure LogRow where
  id : Nat
  user_id : Option Nat
  username : String
  accion : String
  ip_address : Option String
  fecha : Nat
  exitoso : Nat
deriving DecidableEq

structure AuthDb where
  usuarios : List User
  sesiones : List Session
  logs_acceso : List LogRow
deriving DecidableEq

/-- log_access from backendauth.py: appends one audit row; the t
argument is the datetime.now() read inside the function. -/
def log_access (db : AuthDb) (user_id : Option Nat) (username : String)
    (accion : String) (ip_address : Option String) (t : Nat)
    (exitoso : Bool) : AuthDb :=
  { db with logs_acceso := db.logs_acceso ++
      [⟨db.logs_acceso.length + 1, user_id, username, accion, ip_address, t,
        if exitoso then 1 else 0⟩] }

/-! ### Response bodies -/

structure PubUser where
  id : Nat
  username : String
  nombre_completo : String
  role : String
  permisos : String
deriving DecidableEq

structure ApiBody where
  success : Bool
  error : Option String
  token : Option TokenWire
  user : Option PubUser
deriving DecidableEq

def okBody : ApiBody := ⟨true, none, none, none⟩

def errBody (e : String) : ApiBody := ⟨false, some e, none, none⟩

/-! ### Login handler (POST /api/login, POST /api/auth/login)

The request carries optional username and password fields; Python
truthiness makes a missing field and an empty string equivalent.  Clock
reads: tGen is the datetime.utcnow() inside generate_token, t1 the
datetime.now() used for ultimo_acceso and the session start, t2 the
separate datetime.now() used for the session expiry, tLog the read
inside log_access. -/

structure LoginRequest where
  username : Option String
  password : Option String
deriving DecidableEq

def strFieldTruthy : Option String → Bool
  | none => false
  | some s => !s.isEmpty

def login (pbkdf2_hmac : String → String → Nat → List Byte)
    (b64encode : List Byte → String) (hmac : Nat → Payload → Nat)
    (secret tGen t1 t2 tLog : Nat) (ip user_agent : Option String)
    (db : AuthDb) (req : LoginRequest) : AuthDb × Nat × ApiBody :=
  if !(strFieldTruthy req.username) || !(strFieldTruthy req.password) then
    (db, 400, errBody "Credenciales incompletas")
  else
    let username := req.username.getD ""
    let password := req.password.getD ""
    match db.usuarios.find? (fun u => u.username == username && u.activo == 1) with
    | none =>
      (log_access db none username "login_fallido" ip tLog false, 401,
        errBody "Credenciales inválidas")
    | some user =>
      if !(verify_password pbkdf2_hmac b64encode password user.password_hash
          user.salt) then
        (log_access db (some user.id) username "login_fallido" ip tLog false, 401,
          errBody "Credenciales inválidas")
      else
        let token := generate_token hmac secret tGen user.id user.username
          user.role
        let usuarios2 := db.usuarios.map (fun u =>
          if u.id == user.id then { u with ultimo_acceso := some t1 } else u)
        let ses : Session := ⟨db.sesiones.length + 1, user.id, token, ip,
          user_agent, t1, t2 + tokenValidity, 1⟩
        let db2 : AuthDb := ⟨usuarios2, db.sesiones ++ [ses], db.logs_acceso⟩
        (log_access db2 (some user.id) username "login_exitoso" ip tLog true,
          200,
          ⟨true, none, some token,
            some ⟨user.id, user.username, user.nombre_completo, user.role,
              user.permisos⟩⟩)

/-! ### Logout handler (POST /api/auth/logout) -/

def tokenFieldTruthy : Option TokenWire → Bool
  | none => false
  | some (.garbage raw) => !raw.isEmpty
  | some (.signed _ _) => true

def deactivateSessions (token : TokenWire) (l : List Session) : List Session :=
  l.map (fun s => if s.token == token then { s with activa := 0 } else s)

def logout (db : AuthDb) (token : Option TokenWire) : AuthDb × Nat × ApiBody :=
  if tokenFieldTruthy token then
    match token with
    | some t => (⟨db.usuarios, deactivateSessions t db.sesiones,
        db.logs_acceso⟩, 200, okBody)
    | none => (db, 200, okBody)
  else
    (db, 200, okBody)

/-! ### Director-only management handlers

Each handler reads the bearer token, verifies it, and requires the role
claim to be the literal director, answering 403 otherwise. -/

def authDirector (hmac : Nat → Payload → Nat) (secret now : Nat)
    (token : TokenWire) : Option Payload :=
  match verify_token hmac secret now token with
  | none => none
  | some payload =>
    if payload.role == "director" then some payload else none

/-- JSON values appearing in the user-listing response. -/
inductive JVal
  | s (v : String)
  | n (v : Nat)
  | null
deriving DecidableEq

def optStrJ : Option String → JVal
  | none => JVal.null
  | some v => JVal.s v

def optNatJ : Option Nat → JVal
  | none => JVal.null
  | some v => JVal.n v

/-- One row of the GET /api/users response: exactly the nine columns
the SELECT names, in order. -/
def userListRow (u : User) : List (String × JVal) :=
  [("id", JVal.n u.id), ("username", JVal.s u.username),
   ("nombre_completo", JVal.s u.nombre_completo), ("email", optStrJ u.email),
   ("role", JVal.s u.role), ("permisos", JVal.s u.permisos),
   ("activo", JVal.n u.activo), ("fecha_creacion", JVal.n u.fecha_creacion),
   ("ultimo_acceso", optNatJ u.ultimo_acceso)]

/-- get_users from backendauth.py: director-gated listing of all user
rows, newest creation first. -/
def get_users (hmac : Nat → Payload → Nat) (secret now : Nat) (db : AuthDb)
    (token : TokenWire) :
    Except (Nat × ApiBody) (List (List (String × JVal))) :=
  match authDirector hmac secret now token with
  | none => .error (403, errBody "No autorizado")
  | some _ =>
    .ok ((db.usuarios.mergeSort
      (fun a b => decide (b.fecha_creacion ≤ a.fecha_creacion))).map userListRow)

/-- The optional fields of a PUT /api/users/:id request body. -/
structure UserUpdate where
  nombre_completo : Option String
  email : Option String
  role : Option String
  permisos : Option String
  activo : Option Nat
  password : Option String
deriving DecidableEq

def applyUserUpdate (pbkdf2_hmac : String → String → Nat → List Byte)
    (b64encode : List Byte → String) (freshSalt : String) (d : UserUpdate)
    (u : User) : User :=
  let u1 := match d.nombre_completo with
    | none => u
    | some v => { u with nombre_completo := v }
  let u2 := match d.email with
    | none => u1
    | some v => { u1 with email := some v }
  let u3 := match d.role with
    | none => u2
    | some v => { u2 with role := v }
  let u4 := match d.permisos with
    | none => u3
    | some v => { u3 with permisos := v }
  let u5 := match d.activo with
    | none => u4
    | some v => { u4 with activo := v }
  match d.password with
  | none => u5
  | some pw =>
    let hs := hash_password pbkdf2_hmac b64encode freshSalt pw none
    { u5 with password_hash := hs.1, salt := hs.2 }

/-- update_user from backendauth.py: director-gated partial update of
one user row.  There is no special case for user_id 1; when no field is
present the UPDATE is skipped, which coincides with applying the empty
update to every matching row.  A password update derives a fresh salt
(the freshSalt argument). -/
def update_user (pbkdf2_hmac : String → String → Nat → List Byte)
    (b64encode : List Byte → String) (freshSalt : String)
    (hmac : Nat → Payload → Nat) (secret now : Nat) (db : AuthDb)
    (user_id : Nat) (token : TokenWire) (d : UserUpdate) :
    AuthDb × Nat × ApiBody :=
  match authDirector hmac secret now token with
  | none => (db, 403, errBody "No autorizado")
  | some _ =>
    (⟨db.usuarios.map (fun u =>
        if u.id == user_id then
          applyUserUpdate pbkdf2_hmac b64encode freshSalt d u
        else u),
      db.sesiones, db.logs_acceso⟩, 200, okBody)

/-- delete_user from backendauth.py: director-gated soft delete; id 1
is refused with 400 before touching the store; any other id has its
activo flag cleared. -/
def delete_user (hmac : Nat → Payload → Nat) (secret now : Nat) (db : AuthDb)
    (user_id : Nat) (token : TokenWire) : AuthDb × Nat × ApiBody :=
  match authDirector hmac secret now token with
  | none => (db, 403, errBody "No autorizado")
  | some _ =>
    if user_id == 1 then
      (db, 400, errBody "No se puede eliminar al director")
    else
      (⟨db.usuarios.map (fun u =>
          if u.id == user_id then { u with activo := 0 } else u),
        db.sesiones, db.logs_acceso⟩, 200, okBody)

/-! ### Concrete fixtures for witnesses and counterexamples -/

def hmac0 : Nat → Payload → Nat := fun _ _ => 0

def dirPayload : Payload := ⟨1, "DirectorEjecutivoAndres", "director", 100⟩

def dirToken : TokenWire := .signed dirPayload 0

def dirUser : User := ⟨1, "DirectorEjecutivoAndres", "h", "s",
  "Andres Hidalgo - Director Ejecutivo", some "andres@ajhb.com", "director",
  "all", 1, 0, none, none⟩

def db0 : AuthDb := ⟨[dirUser], [], []⟩

def pbw : String → String → Nat → List Byte := fun p _ _ => strPack p

def bobUser : User := ⟨2, "bob", byteStr (strPack "pw"), "s", "Bob", none,
  "secretario", "ventas", 1, 0, none, none⟩

def dbBob : AuthDb := ⟨[bobUser], [], []⟩

/-- C1, counterexample.  The claim includes that no management-API
operation clears the active flag of the bootstrap director, but update_user
has no guard on user id 1: an authorized PUT /api/users/1 whose body
carries activo 0 succeeds and clears the flag of the director. -/
theorem C1_update_deactivates_director_counterexample :
    dirUser.activo = 1 ∧
      (update_user pbw byteStr "ns" hmac0 0 0 db0 1 dirToken
        ⟨none, none, none, none, some 0, none⟩).2 = (200, okBody) ∧
      ((update_user pbw byteStr "ns" hmac0 0 0 db0 1 dirToken
        ⟨none, none, none, none, some 0, none⟩).1.usuarios.map User.activo)
        = [0] :=
  ⟨rfl, rfl, rfl⟩

/-- C1, amended: DELETE /api/users/1 from an authorized director
returns 400 with the cannot-delete-director error and leaves the store
completely unchanged; the no-deactivation half of the claim is dropped,
since PUT /api/users/1 with an activo field can clear the bootstrap
active flag of the bootstrap director. -/
theorem C1_delete_director_guard (hmac : Nat → Payload → Nat)
    (secret now : Nat) (db : AuthDb) (token : TokenWire) (p : Payload)
    (hauth : verify_token hmac secret now token = some p)
    (hrole : p.role = "director") :
    delete_user hmac secret now db 1 token
      = (db, 400, errBody "No se puede eliminar al director") := by
  unfold delete_user authDirector
  rw [hauth]
  simp [hrole]

/-- Witness for C1: the delete guard applied to the seeded director
store with a validly signed director token under the all-zero MAC. -/
theorem C1_delete_director_guard_witness :
    delete_user hmac0 0 0 db0 1 dirToken
      = (db0, 400, errBody "No se puede eliminar al director") :=
  C1_delete_director_guard hmac0 0 0 db0 dirToken dirPayload rfl rfl

/-- C5: a login attempt whose username matches no active user and a
login attempt with a known active username but a wrong password produce
the same observable response: HTTP 401 with the identical
invalid-credentials body, so the caller cannot tell the causes apart. -/
theorem C5_login_indistinguishable_failures
    (pbkdf2_hmac : String → String → Nat → List Byte)
    (b64encode : List Byte → String) (hmac : Nat → Payload → Nat)
    (secret tGen t1 t2 tLog : Nat) (ip ua : Option String) (db : AuthDb)
    (un1 pw1 un2 pw2 : String) (u2 : User)
    (h1 : un1.isEmpty = false) (h2 : pw1.isEmpty = false)
    (h3 : un2.isEmpty = false) (h4 : pw2.isEmpty = false)
    (hnf : db.usuarios.find? (fun u => u.username == un1 && u.activo == 1)
      = none)
    (hf : db.usuarios.find? (fun u => u.username == un2 && u.activo == 1)
      = some u2)
    (hwrong : verify_password pbkdf2_hmac b64encode pw2 u2.password_hash
      u2.salt = false) :
    (login pbkdf2_hmac b64encode hmac secret tGen t1 t2 tLog ip ua db
        ⟨some un1, some pw1⟩).2
      = (login pbkdf2_hmac b64encode hmac secret tGen t1 t2 tLog ip ua db
        ⟨some un2, some pw2⟩).2 ∧
      (login pbkdf2_hmac b64encode hmac secret tGen t1 t2 tLog ip ua db
        ⟨some un1, some pw1⟩).2
        = (401, errBody "Credenciales inválidas") := by
  have e1 : (login pbkdf2_hmac b64encode hmac secret tGen t1 t2 tLog ip ua db
      ⟨some un1, some pw1⟩).2 = (401, errBody "Credenciales inválidas") := by
    simp [login, strFieldTruthy, h1, h2, hnf]
  have e2 : (login pbkdf2_hmac b64encode hmac secret tGen t1 t2 tLog ip ua db
      ⟨some un2, some pw2⟩).2 = (401, errBody "Credenciales inválidas") := by
    simp [login, strFieldTruthy, h3, h4, hf, hwrong]
  exact ⟨e1.trans e2.symm, e1⟩

/-- Witness for C5: the indistinguishability theorem applied to a store
holding the active user bob, comparing the unknown username alice
against bob with a wrong password, under the packed-bytes digest. -/
theorem C5_login_indistinguishable_failures_witness :
    (login pbw byteStr hmac0 0 0 0 0 0 none none dbBob
        ⟨some "alice", some "x"⟩).2
      = (login pbw byteStr hmac0 0 0 0 0 0 none none dbBob
        ⟨some "bob", some "nope"⟩).2 ∧
      (login pbw byteStr hmac0 0 0 0 0 0 none none dbBob
        ⟨some "alice", some "x"⟩).2
        = (401, errBody "Credenciales inválidas") :=
  C5_login_indistinguishable_failures pbw byteStr hmac0 0 0 0 0 0 none none
    dbBob "alice" "x" "bob" "nope" bobUser rfl rfl rfl rfl rfl rfl (by decide)

theorem deactivateSessions_idem (t : TokenWire) (l : List Session) :
    deactivateSessions t (deactivateSessions t l) = deactivateSessions t l := by
  unfold deactivateSessions
  rw [List.map_map]
  apply List.map_congr_left
  intro s _
  obtain ⟨i, uid, tok, ip, ua, fi, fe, a⟩ := s
  by_cases h : tok = t
  · simp [h]
  · simp [h]

theorem deactivateSessions_noop (t : TokenWire) (l : List Session)
    (h : ∀ s ∈ l, s.token = t → s.activa = 0) :
    deactivateSessions t l = l := by
  unfold deactivateSessions
  calc l.map (fun s => if s.token == t then { s with activa := 0 } else s)
      = l.map id := by
        apply List.map_congr_left
        intro s hs
        by_cases ht : s.token == t
        · have h0 : s.activa = 0 := h s hs (beq_iff_eq.mp ht)
          obtain ⟨i, uid, tok, ip, ua, fi, fe, a⟩ := s
          simp only [id_eq, if_pos ht]
          simpa using h0.symm
        · simp [ht]
    _ = l := List.map_id l

/-- C7: logout always reports success, it is idempotent -- running it a
second time with the same token leaves the store exactly where the
first run left it -- and when every session carrying the given token is
already inactive (in particular when the token was never issued, so no
session carries it) the first run is already a no-op on the store. -/
theorem C7_logout_idempotent (db : AuthDb) (token : Option TokenWire) :
    (logout db token).2.2.success = true ∧
      (logout (logout db token).1 token).2.2.success = true ∧
      (logout (logout db token).1 token).1 = (logout db token).1 ∧
      ((∀ s ∈ db.sesiones, ∀ t, token = some t → s.token = t → s.activa = 0) →
        (logout db token).1 = db) := by
  cases token with
  | none => exact ⟨rfl, rfl, rfl, fun _ => rfl⟩
  | some t =>
    by_cases htr : tokenFieldTruthy (some t)
    · obtain ⟨us, ss, ls⟩ := db
      simp only [logout, htr, if_true]
      refine ⟨rfl, rfl, ?_, ?_⟩
      · simp [deactivateSessions_idem]
      · intro h
        have hnoop : deactivateSessions t ss = ss := by
          apply deactivateSessions_noop
          intro s hs hst
          exact h s hs t rfl hst
        simp [hnoop]
    · simp only [logout, htr, if_false]
      exact ⟨rfl, rfl, rfl, fun _ => rfl⟩

/-- Witness for C7: the idempotence theorem applied to the seeded store,
whose session table is empty, with a signed token; both runs report
success and neither changes the store. -/
theorem C7_logout_idempotent_witness :
    (logout db0 (some dirToken)).2.2.success = true ∧
      (logout (logout db0 (some dirToken)).1 (some dirToken)).2.2.success
        = true ∧
      (logout (logout db0 (some dirToken)).1 (some dirToken)).1
        = (logout db0 (some dirToken)).1 ∧
      (logout db0 (some dirToken)).1 = db0 :=
  ⟨(C7_logout_idempotent db0 (some dirToken)).1,
   (C7_logout_idempotent db0 (some dirToken)).2.1,
   (C7_logout_idempotent db0 (some dirToken)).2.2.1,
   (C7_logout_idempotent db0 (some dirToken)).2.2.2
     (by intro s hs t ht hst; simp [db0] at hs)⟩

/-- The session row the login handler inserts: issue timestamp from the
first datetime.now() read, expiry from the second read plus the
24-hour window. -/
def loginSession (hmac : Nat → Payload → Nat) (secret tGen t1 t2 : Nat)
    (ip ua : Option String) (db : AuthDb) (u : User) : Session :=
  ⟨db.sesiones.length + 1, u.id,
    generate_token hmac secret tGen u.id u.username u.role, ip, ua, t1,
    t2 + tokenValidity, 1⟩

/-- C8, counterexample.  The handler reads the wall clock twice: once
for ultimo_acceso and the session issue timestamp, and again, five
lines later, for the expiry.  When the two reads fall in different
seconds the stored expiry is not the stored issue timestamp plus the
24-hour window: a successful login with the reads one second apart
stores expiry = issue + 24h + 1s. -/
theorem C8_two_clock_reads_counterexample :
    (login pbw byteStr hmac0 0 0 0 1 0 none none dbBob
        ⟨some "bob", some "pw"⟩).2.1 = 200 ∧
      (login pbw byteStr hmac0 0 0 0 1 0 none none dbBob
        ⟨some "bob", some "pw"⟩).1.sesiones.all
        (fun s => s.fecha_expiracion == s.fecha_inicio + tokenValidity)
        = false :=
  ⟨rfl, rfl⟩

/-- C8, amended: the session row created on successful login stores
expiry equal to the second wall-clock read of the handler plus the same
24-hour validity constant the token service uses; whenever the two
reads return the same second -- the common case -- the stored expiry
equals the stored issue timestamp plus that window. -/
theorem C8_session_expiry_second_read
    (pbkdf2_hmac : String → String → Nat → List Byte)
    (b64encode : List Byte → String) (hmac : Nat → Payload → Nat)
    (secret tGen t1 t2 tLog : Nat) (ip ua : Option String) (db : AuthDb)
    (un pw : String) (u : User)
    (hu : un.isEmpty = false) (hp : pw.isEmpty = false)
    (hf : db.usuarios.find? (fun x => x.username == un && x.activo == 1)
      = some u)
    (hok : verify_password pbkdf2_hmac b64encode pw u.password_hash u.salt
      = true) :
    (login pbkdf2_hmac b64encode hmac secret tGen t1 t2 tLog ip ua db
        ⟨some un, some pw⟩).1.sesiones
      = db.sesiones ++ [loginSession hmac secret tGen t1 t2 ip ua db u] ∧
      (t1 = t2 →
        (loginSession hmac secret tGen t1 t2 ip ua db u).fecha_expiracion
          = (loginSession hmac secret tGen t1 t2 ip ua db u).fecha_inicio
            + tokenValidity) := by
  constructor
  · simp [login, strFieldTruthy, hu, hp, hf, hok, log_access, loginSession]
  · intro h
    simp [loginSession, h]

/-- Witness for C8: the amended theorem applied to the store holding
bob with a correct password and both wall-clock reads at second 5. -/
theorem C8_session_expiry_second_read_witness :
    (login pbw byteStr hmac0 0 0 5 5 0 none none dbBob
        ⟨some "bob", some "pw"⟩).1.sesiones
      = dbBob.sesiones ++ [loginSession hmac0 0 0 5 5 none none dbBob bobUser] ∧
      (loginSession hmac0 0 0 5 5 none none dbBob bobUser).fecha_expiracion
        = (loginSession hmac0 0 0 5 5 none none dbBob bobUser).fecha_inicio
          + tokenValidity :=
  ⟨(C8_session_expiry_second_read pbw byteStr hmac0 0 0 5 5 0 none none dbBob
      "bob" "pw" bobUser rfl rfl rfl (by decide)).1,
   (C8_session_expiry_second_read pbw byteStr hmac0 0 0 5 5 0 none none dbBob
      "bob" "pw" bobUser rfl rfl rfl (by decide)).2 rfl⟩

/-- C9: whenever GET /api/users answers successfully, every row of the
returned data list carries exactly the nine selected columns, and in
particular neither a password_hash nor a salt key: the listing never
exposes stored credential material. -/
theorem C9_get_users_omits_credentials (hmac : Nat → Payload → Nat)
    (secret now : Nat) (db : AuthDb) (token : TokenWire)
    (rows : List (List (String × JVal))) (r : List (String × JVal))
    (hok : get_users hmac secret now db token = .ok rows) (hr : r ∈ rows) :
    ¬ "password_hash" ∈ r.map Prod.fst ∧ ¬ "salt" ∈ r.map Prod.fst := by
  unfold get_users at hok
  cases hauth : authDirector hmac secret now token with
  | none =>
    rw [hauth] at hok
    exact absurd hok (by simp)
  | some p =>
    rw [hauth] at hok
    simp only [Except.ok.injEq] at hok
    subst hok
    rcases List.mem_map.mp hr with ⟨u, _, hru⟩
    subst hru
    constructor
    · simp [userListRow]
    · simp [userListRow]

/-- Witness for C9: the credential-omission theorem applied to the
seeded store under a validly signed director token; the single returned
row is that of the director and carries no credential keys. -/
theorem C9_get_users_omits_credentials_witness :
    ¬ "password_hash" ∈ (userListRow dirUser).map Prod.fst ∧
      ¬ "salt" ∈ (userListRow dirUser).map Prod.fst :=
  C9_get_users_omits_credentials hmac0 0 0 db0 dirToken
    ((db0.usuarios.mergeSort
      (fun a b => decide (b.fecha_creacion ≤ a.fecha_creacion))).map
        userListRow)
    (userListRow dirUser) rfl
    (by
      refine List.mem_map.mpr ⟨dirUser, ?_, rfl⟩
      rw [List.mem_mergeSort]
      simp [db0])

/-- C10: an account whose activo flag is 0 can never log in: the user
lookup filters on activo = 1, so the request falls into the unknown-user
branch and answers 401 invalid credentials whatever the supplied
password is, and no token is issued. -/
theorem C10_inactive_account_login_rejected
    (pbkdf2_hmac : String → String → Nat → List Byte)
    (b64encode : List Byte → String) (hmac : Nat → Payload → Nat)
    (secret tGen t1 t2 tLog : Nat) (ip ua : Option String) (db : AuthDb)
    (un pw : String) (u : User)
    (hu : un.isEmpty = false) (hp : pw.isEmpty = false)
    (_hmem : u ∈ db.usuarios) (_hname : u.username = un) (hflag : u.activo = 0)
    (huniq : ∀ v ∈ db.usuarios, v.username = un → v = u) :
    (login pbkdf2_hmac b64encode hmac secret tGen t1 t2 tLog ip ua db
        ⟨some un, some pw⟩).2
      = (401, errBody "Credenciales inválidas") := by
  have hnf : db.usuarios.find? (fun x => x.username == un && x.activo == 1)
      = none := by
    rw [List.find?_eq_none]
    intro v hv
    simp only [Bool.and_eq_true, beq_iff_eq, not_and]
    intro hvn hva
    rw [huniq v hv hvn] at hva
    omega
  simp [login, strFieldTruthy, hu, hp, hnf]

/-- Witness for C10: the rejection theorem applied to a store holding a
deactivated bob, with the genuinely correct password supplied. -/
theorem C10_inactive_account_login_rejected_witness :
    (login pbw byteStr hmac0 0 0 0 0 0 none none
        ⟨[⟨2, "bob", byteStr (strPack "pw"), "s", "Bob", none, "secretario",
          "ventas", 0, 0, none, none⟩], [], []⟩
        ⟨some "bob", some "pw"⟩).2
      = (401, errBody "Credenciales inválidas") :=
  C10_inactive_account_login_rejected pbw byteStr hmac0 0 0 0 0 0 none none
    ⟨[⟨2, "bob", byteStr (strPack "pw"), "s", "Bob", none, "secretario",
      "ventas", 0, 0, none, none⟩], [], []⟩
    "bob" "pw"
    ⟨2, "bob", byteStr (strPack "pw"), "s", "Bob", none, "secretario",
      "ventas", 0, 0, none, none⟩
    rfl rfl (by simp) rfl rfl (by intro v hv hvn; simpa using hv)

end AJHB
